import Mathlib

/-!
Verification of the ai4kali command-safety and execution-gating pipeline.

The development is a shallow embedding of src/ai4kali.py:
* Python string primitives (str.strip, str.split, str.splitlines, str.lower,
  str.startswith) are modelled over Lean strings / character lists, restricted
  to the ASCII behaviour that is relevant to shell command text.
* The regular expressions in DANGEROUS_PATTERNS use only literals, the classes
  \s and ., the quantifiers + * and a bounded repetition, and the word
  boundary \b; a small executable matcher for exactly those constructs embeds
  re.search.
* The subprocess boundary (ollama, the executed child command, interactive
  input) is modelled as explicit oracle values fed into otherwise pure
  translations of the control flow of call_ollama_run, generate_command,
  main (single-shot), run_simple_cli (one loop turn) and run_rich_tui
  (one action-selection step).
-/

namespace Ai4kali

/-! ### Python string primitives -/

/-- ASCII whitespace as recognised by Python str.strip() / str.split():
space, tab, newline, carriage return, vertical tab, form feed.
(Python additionally treats some rare control and Unicode characters as
whitespace; they cannot occur in the ASCII command text modelled here.) -/
def isPySpace (c : Char) : Bool :=
  c = ' ' || c = '\t' || c = '\n' || c = '\r' || c = '\x0b' || c = '\x0c'

/-- Characters of a string with leading and trailing whitespace removed. -/
def stripChars (l : List Char) : List Char :=
  ((l.dropWhile isPySpace).reverse.dropWhile isPySpace).reverse

/-- Python str.strip() with no arguments. -/
def pyStrip (s : String) : String := ⟨stripChars s.data⟩

/-- Worker for str.split(): split on runs of whitespace, dropping empty
pieces; acc holds the characters of the current piece, reversed. -/
def splitWsAux : List Char → List Char → List (List Char)
  | [], acc => if acc.isEmpty then [] else [acc.reverse]
  | c :: cs, acc =>
    if isPySpace c then
      if acc.isEmpty then splitWsAux cs [] else acc.reverse :: splitWsAux cs []
    else splitWsAux cs (c :: acc)

/-- Python str.split() with no arguments. -/
def pySplitWs (s : String) : List String :=
  (splitWsAux s.data []).map String.mk

/-- Worker for str.splitlines(): split at newline characters; a terminal
newline does not contribute a final empty line. -/
def splitLinesAux : List Char → List Char → List String
  | [], acc => if acc.isEmpty then [] else [⟨acc.reverse⟩]
  | c :: cs, acc =>
    if c = '\n' then ⟨acc.reverse⟩ :: splitLinesAux cs []
    else splitLinesAux cs (c :: acc)

/-- Python str.splitlines(), restricted to the newline separator (Python also
splits at \r and a few rare control characters; every line produced here is
subsequently stripped, which removes a stray \r). -/
def splitLinesPy (s : String) : List String := splitLinesAux s.data []

/-- Python str.lower(), ASCII case folding. -/
def pyLower (s : String) : String := ⟨s.data.map Char.toLower⟩

/-- Python str.startswith(p). -/
def pyStartswith (s p : String) : Bool := p.data.isPrefixOf s.data

/-! ### A matcher for the regular-expression subset used by
DANGEROUS_PATTERNS -/

/-- Single-character classes appearing in the patterns. -/
inductive CC where
  | lit (c : Char)
  | ws
  | any
deriving DecidableEq

/-- Pattern elements: a class, a quantified class (* + or {1,3}), or the
zero-width word boundary \b. -/
inductive RE where
  | one (c : CC)
  | star (c : CC)
  | plus (c : CC)
  | rep13 (c : CC)
  | wordB
deriving DecidableEq

def ccMatch : CC → Char → Bool
  | .lit a, c => c = a
  | .ws, c => isPySpace c
  | .any, c => c ≠ '\n'

/-- A word character in the sense of the regex class \w (ASCII). -/
def isWordChar (c : Char) : Bool := c.isAlphanum || c = '_'

/-- The position between prev (the character just before the current
position, none at the start of the string) and the remaining input l is a
word boundary: word-ness changes. -/
def atBoundary (prev : Option Char) (l : List Char) : Bool :=
  (match prev with | none => false | some c => isWordChar c)
    != (match l with | [] => false | c :: _ => isWordChar c)

/-- Anchored matching of a pattern against a prefix of l; prev is the
character preceding l in the full subject (for word boundaries).
Fuel-indexed so that the function is structurally recursive and reduces
inside the kernel; every recursive call strictly decreases
l.length + ps.length, so fuel = l.length + ps.length + 1 always suffices
(reMatchF_fuel_irrelevant below). -/
def reMatchF : Nat → List RE → List Char → Option Char → Bool
  | 0, _, _, _ => false
  | _ + 1, [], _, _ => true
  | f + 1, .wordB :: ps, l, prev => atBoundary prev l && reMatchF f ps l prev
  | _ + 1, .one _ :: _, [], _ => false
  | f + 1, .one c :: ps, x :: xs, _ => ccMatch c x && reMatchF f ps xs (some x)
  | _ + 1, .plus _ :: _, [], _ => false
  | f + 1, .plus c :: ps, x :: xs, _ =>
      ccMatch c x && reMatchF f (.star c :: ps) xs (some x)
  | f + 1, .star c :: ps, l, prev =>
      reMatchF f ps l prev ||
        (match l with
         | [] => false
         | x :: xs => ccMatch c x && reMatchF f (.star c :: ps) xs (some x))
  | _ + 1, .rep13 _ :: _, [], _ => false
  | f + 1, .rep13 c :: ps, x :: xs, _ =>
      ccMatch c x &&
        (reMatchF f ps xs (some x) ||
          (match xs with
           | [] => false
           | y :: ys =>
             ccMatch c y &&
               (reMatchF f ps ys (some y) ||
                 (match ys with
                  | [] => false
                  | z :: zs => ccMatch c z && reMatchF f ps zs (some z)))))

/-- Anchored match with adequate fuel. -/
def reMatch (ps : List RE) (l : List Char) (prev : Option Char) : Bool :=
  reMatchF (l.length + ps.length + 1) ps l prev

/-- re.search: try an anchored match at every position of the subject. -/
def reSearchAux (ps : List RE) : List Char → Option Char → Bool
  | l, prev =>
    reMatch ps l prev ||
      (match l with
       | [] => false
       | x :: xs => reSearchAux ps xs (some x))

def reSearch (ps : List RE) (s : String) : Bool := reSearchAux ps s.data none

/-- A sequence of literal pattern elements. -/
def lits (s : String) : List RE := s.data.map (fun c => RE.one (CC.lit c))

/-! ### The deny list: DANGEROUS_PATTERNS (ai4kali.py lines 48-52), one
definition per source regex.  All patterns are applied to the lowercased
command, so the literals are lowercase exactly as in the source. -/

/-- Source regex: \brm\s+-rf\b -/
def pat_rm_rf : List RE := [.wordB] ++ lits "rm" ++ [.plus .ws] ++ lits "-rf" ++ [.wordB]

/-- Source regex: \bdd\s+if= -/
def pat_dd_if : List RE := [.wordB] ++ lits "dd" ++ [.plus .ws] ++ lits "if="

/-- Source regex: \bmkfs\b -/
def pat_mkfs : List RE := [.wordB] ++ lits "mkfs" ++ [.wordB]

/-- Source regex: a colon, \s*, the literal characters ( ), \s*, and a
literal opening curly brace (the fork-bomb idiom). -/
def pat_forkbomb : List RE :=
  lits ":" ++ [.star .ws] ++ lits "()" ++ [.star .ws] ++ [.one (.lit (Char.ofNat 123))]

/-- Source regex: \bshutdown\b -/
def pat_shutdown : List RE := [.wordB] ++ lits "shutdown" ++ [.wordB]

/-- Source regex: \breboot\b -/
def pat_reboot : List RE := [.wordB] ++ lits "reboot" ++ [.wordB]

/-- Source regex: wget\s+.*\|\s*sh -/
def pat_wget_sh : List RE :=
  lits "wget" ++ [.plus .ws] ++ [.star .any] ++ lits "|" ++ [.star .ws] ++ lits "sh"

/-- Source regex: curl\s+.*\|\s*sh -/
def pat_curl_sh : List RE :=
  lits "curl" ++ [.plus .ws] ++ [.star .any] ++ lits "|" ++ [.star .ws] ++ lits "sh"

/-- Source regex: the literal text >/dev/sd -/
def pat_devsd : List RE := lits ">/dev/sd"

/-- Source regex: fdisk\b -/
def pat_fdisk : List RE := lits "fdisk" ++ [.wordB]

/-- Source regex: chmod\s+0{1,3}\b -/
def pat_chmod : List RE :=
  lits "chmod" ++ [.plus .ws] ++ [.rep13 (.lit '0')] ++ [.wordB]

/-- Source regex: chown\s+root\b -/
def pat_chown : List RE := lits "chown" ++ [.plus .ws] ++ lits "root" ++ [.wordB]

/-- Source regex: \bformat\b -/
def pat_format : List RE := [.wordB] ++ lits "format" ++ [.wordB]

/-- DANGEROUS_PATTERNS (ai4kali.py lines 48-52), in source order. -/
def DANGEROUS_PATTERNS : List (List RE) :=
  [pat_rm_rf, pat_dd_if, pat_mkfs, pat_forkbomb, pat_shutdown, pat_reboot,
   pat_wget_sh, pat_curl_sh, pat_devsd, pat_fdisk, pat_chmod, pat_chown,
   pat_format]

/-- SAFE_TOOL_PREFIXES (ai4kali.py lines 53-57). -/
def SAFE_TOOL_PREFIXES : List String :=
  ["nmap","curl","wget","ping","ss","netstat","tcpdump","tshark","hydra",
   "medusa","john","nikto","gobuster","ffuf","dirb","dirsearch","nc","ncat",
   "ssh","scp","rsync","systemctl","journalctl","cat","less","grep","awk",
   "sed","whoami","uname"]

/-- The tuple of simple builtins allowed at ai4kali.py line 139. -/
def SIMPLE_BUILTINS : List String :=
  ["echo","ls","ps","top","htop","whoami","uname"]

/-! ### Safety classifier -/

/-- is_dangerous (ai4kali.py lines 123-128): lowercase the command and
re.search every deny-list pattern against it. -/
def is_dangerous (cmd : String) : Bool :=
  DANGEROUS_PATTERNS.any (fun p => reSearch p (pyLower cmd))

/-- The effective first token examined by looks_like_command: the lowercased
first whitespace token, replaced by the lowercased second token when the
first is sudo and a second token exists (ai4kali.py lines 133-137). -/
def firstTokenLC (t : String) (rest : List String) : String :=
  let first := pyLower t
  if first = "sudo" then
    match rest with
    | [] => first
    | u :: _ => pyLower u
  else first

/-- looks_like_command (ai4kali.py lines 130-141). -/
def looks_like_command (cmd : String) : Bool :=
  if cmd = "" ∨ (pyStrip cmd).length < 2 then false
  else
    match pySplitWs (pyStrip cmd) with
    | [] => false  -- unreachable: a stripped string of length >= 2 has a token
    | t :: rest =>
      let first := firstTokenLC t rest
      if first ∈ SIMPLE_BUILTINS then true
      else SAFE_TOOL_PREFIXES.any (fun p => pyStartswith first p)

/-! ### Prompt template and sentinel -/

/-- The part of PROMPT_SINGLE_COMMAND (ai4kali.py lines 144-149) before the
format placeholder for the query. -/
def TPL_BEFORE : String :=
  "You are a concise Kali Linux assistant. The user request:\n"

/-- The part of PROMPT_SINGLE_COMMAND after the format placeholder. -/
def TPL_AFTER : String :=
  "\n\nReturn EXACTLY one terminal command (single line) that performs this task. Do NOT output explanations, markdown, or other text.\nIf the request is ambiguous or unsafe, output: echo \"no-command\"\n"

/-- PROMPT_SINGLE_COMMAND.format applied to the query (generate_command,
ai4kali.py line 160). -/
def build_prompt (query : String) : String := TPL_BEFORE ++ query ++ TPL_AFTER

/-- The sentinel literal that main compares the candidate against
(ai4kali.py line 368). -/
def SENTINEL : String := "echo \"no-command\""

/-! ### Model client boundary -/

/-- Outcome of the one subprocess.run call inside call_ollama_run, as
observed by the surrounding try/except: the process completed with an exit
status and decoded stdout/stderr, or subprocess.TimeoutExpired was raised,
or FileNotFoundError was raised, or some other exception carrying a
message. -/
inductive SubprocessOutcome where
  | completed (rc : Int) (stdout stderr : String)
  | timedOut
  | notFound
  | raised (msg : String)
deriving DecidableEq

/-- call_ollama_run (ai4kali.py lines 106-120).  The source returns the pair
(out, err) with exactly one side set; that invariant is made typed here as
an Except (error message on the left, stripped stdout on the right). -/
def call_ollama_run (backend : SubprocessOutcome) : Except String String :=
  match backend with
  | .completed rc stdout stderr =>
    let out := pyStrip stdout
    let err := pyStrip stderr
    if rc ≠ 0 ∧ out = "" then
      .error (if err ≠ "" then err else "exit:" ++ toString rc)
    else .ok out
  | .timedOut => .error "OLLAMA_TIMEOUT"
  | .notFound => .error "OLLAMA_NOT_FOUND"
  | .raised msg => .error msg

/-- call_ollama_run together with the list of backend invocations it
performs, each recorded as (model, prompt, timeout).  The body of the
source function contains a single subprocess.run call (line 109) and no
loop, so exactly one invocation is recorded. -/
def call_ollama_run_traced (backend : SubprocessOutcome)
    (model prompt : String) (timeout : Nat) :
    Except String String × List (String × String × Nat) :=
  (call_ollama_run backend, [(model, prompt, timeout)])

/-- The first-non-blank-line loop of generate_command (ai4kali.py lines
167-171): strip each line, return the first non-empty one. -/
def firstNonBlank : List String → Option String
  | [] => none
  | l :: ls =>
    let t := pyStrip l
    if t = "" then firstNonBlank ls else some t

/-- generate_command (ai4kali.py lines 159-171): build the prompt, call the
model, and extract the first non-blank line of the output; an exhausted
loop yields the error empty_response.  The backend is the recorded outcome
of the one model call. -/
def generate_command (query : String) (backend : SubprocessOutcome) :
    Except String String :=
  let _prompt := build_prompt query
  match call_ollama_run backend with
  | .error e => .error e
  | .ok out =>
    match firstNonBlank (splitLinesPy out) with
    | some ln => .ok ln
    | none => .error "empty_response"

/-! ### Execution flows -/

/-- The command-line flags relevant to the gating flows. -/
structure Args where
  dryRun : Bool
  explain : Bool
  yes : Bool
  debug : Bool
deriving DecidableEq

/-- Terminal outcome of one flow (one single-shot run, one simple-CLI loop
turn, or one TUI action step). -/
inductive Outcome where
  | emptyQuery
  | modelError (e : String)
  | noCommand
  | unrecognized
  | dangerousSkipped
  | dryRunDone
  | interrupted
  | cancelled
  | dangerousBlockedFinal
  | executedDone
  | quit
  | newQuery
  | explained
deriving DecidableEq

/-- Observable result of a flow: its outcome, the process exit status the
flow produces (meaningful for the single-shot flow; the interactive loops
continue), whether execute_command was invoked and on what, the child exit
code relayed when it was, whether an interactive run-confirmation prompt
was consulted, whether the --yes auto-confirmation was consulted, and
whether the candidate command text was displayed to the user. -/
structure RunResult where
  outcome : Outcome
  exitCode : Int := 0
  invokedExecute : Bool := false
  executedCmd : Option String := none
  childRc : Option Int := none
  promptConsulted : Bool := false
  autoConfirmUsed : Bool := false
  displayedCandidate : Bool := false
deriving DecidableEq

/-- gen.strip().splitlines()[0] (ai4kali.py line 366).  The candidate gen is
a stripped non-blank line, so the list is never empty; headD covers the
unreachable IndexError branch. -/
def headLine (s : String) : String := (splitLinesPy s).headD ""

/-- The non-interactive single-shot mode of main (ai4kali.py lines
343-429), from the joined query string onward.  Oracles: backend is the
outcome of the generation call, confirmAnswer the text the user types at
the run-confirmation input (none for KeyboardInterrupt/EOFError), childRc
the exit code execute_command would return.  Note the final branch: main
prints the child exit code and merely returns, so the process exit status
is 0 (there is no sys.exit after line 363). -/
def mainSingleShot (args : Args) (query : String)
    (backend : SubprocessOutcome) (confirmAnswer : Option String)
    (childRc : Int) : RunResult :=
  let q := pyStrip query
  if q = "" then { outcome := .emptyQuery }
  else
    match generate_command q backend with
    | .error e => { outcome := .modelError e, exitCode := 1 }
    | .ok gen =>
      let candidate := headLine (pyStrip gen)
      if candidate = SENTINEL then { outcome := .noCommand }
      else if looks_like_command candidate = false then
        { outcome := .unrecognized, displayedCandidate := true }
      else if is_dangerous candidate then
        { outcome := .dangerousSkipped, displayedCandidate := true }
      else if args.dryRun then
        { outcome := .dryRunDone, displayedCandidate := true }
      else if args.yes then
        -- confirmed = "y" without consulting the interactive prompt
        if is_dangerous candidate then
          { outcome := .dangerousBlockedFinal, autoConfirmUsed := true,
            displayedCandidate := true }
        else
          { outcome := .executedDone, exitCode := 0, invokedExecute := true,
            executedCmd := some candidate, childRc := some childRc,
            autoConfirmUsed := true, displayedCandidate := true }
      else
        match confirmAnswer with
        | none =>
          { outcome := .interrupted, promptConsulted := true,
            displayedCandidate := true }
        | some a =>
          let confirmed := pyLower (pyStrip a)
          if confirmed = "y" ∨ confirmed = "yes" then
            if is_dangerous candidate then
              { outcome := .dangerousBlockedFinal, promptConsulted := true,
                displayedCandidate := true }
            else
              { outcome := .executedDone, exitCode := 0,
                invokedExecute := true, executedCmd := some candidate,
                childRc := some childRc, promptConsulted := true,
                displayedCandidate := true }
          else
            { outcome := .cancelled, promptConsulted := true,
              displayedCandidate := true }

/-- One turn of run_simple_cli (ai4kali.py lines 265-299).  Oracles:
queryInput is the text typed at the task prompt (none for
KeyboardInterrupt/EOFError), backend the outcome of the generation call,
confirmRaw the text typed at the run-confirmation input, childRc the exit
code execute_command would return.  The run-confirmation at line 291 is
evaluated before is_dangerous is consulted at line 293. -/
def simpleCliTurn (args : Args) (queryInput : Option String)
    (backend : SubprocessOutcome) (confirmRaw : String) (childRc : Int) :
    RunResult :=
  match queryInput with
  | none => { outcome := .interrupted }
  | some qi =>
    let query := pyStrip qi
    if query = "" then { outcome := .quit }
    else
      match generate_command query backend with
      | .error e => { outcome := .modelError e }
      | .ok generated =>
        if args.dryRun then
          { outcome := .dryRunDone, displayedCandidate := true }
        else
          let run := if args.yes then "y" else pyLower (pyStrip confirmRaw)
          if run = "y" ∨ run = "yes" then
            if is_dangerous generated then
              { outcome := .dangerousSkipped,
                promptConsulted := !args.yes, autoConfirmUsed := args.yes,
                displayedCandidate := true }
            else
              { outcome := .executedDone, invokedExecute := true,
                executedCmd := some generated, childRc := some childRc,
                promptConsulted := !args.yes, autoConfirmUsed := args.yes,
                displayedCandidate := true }
          else
            { outcome := .cancelled, promptConsulted := !args.yes,
              autoConfirmUsed := args.yes, displayedCandidate := true }

/-- The choices of the inner action loop of run_rich_tui (ai4kali.py line
234). -/
inductive TuiAction where
  | genAgain
  | explainA
  | runA
  | dryA
  | quitA
deriving DecidableEq

/-- One action-selection step of the inner loop of run_rich_tui (ai4kali.py
lines 233-259), for an already generated and displayed candidate.  For the
run action, is_dangerous is consulted (line 245) before the y/n
confirmation prompt (line 248). -/
def tuiActionStep (generated : String) (act : TuiAction) (confirm : String)
    (childRc : Int) : RunResult :=
  match act with
  | .genAgain => { outcome := .newQuery, displayedCandidate := true }
  | .explainA => { outcome := .explained, displayedCandidate := true }
  | .dryA => { outcome := .dryRunDone, displayedCandidate := true }
  | .quitA => { outcome := .quit, displayedCandidate := true }
  | .runA =>
    if is_dangerous generated then
      { outcome := .dangerousSkipped, displayedCandidate := true }
    else if confirm = "y" then
      { outcome := .executedDone, invokedExecute := true,
        executedCmd := some generated, childRc := some childRc,
        promptConsulted := true, displayedCandidate := true }
    else
      { outcome := .cancelled, promptConsulted := true,
        displayedCandidate := true }

/-! ### Basic lemmas about the string primitives -/

lemma data_append (a b : String) : (a ++ b).data = a.data ++ b.data := by
  cases a; cases b; rfl

lemma mk_data (s : String) : String.mk s.data = s := by
  cases s; rfl

lemma length_eq_data_length (s : String) : s.length = s.data.length := rfl

lemma pyLower_length (s : String) : (pyLower s).length = s.length := by
  cases s
  simp [pyLower, length_eq_data_length]

lemma dropWhile_append_all (p : Char → Bool) :
    ∀ (l m : List Char), (∀ c ∈ l, p c = true) →
      (l ++ m).dropWhile p = m.dropWhile p := by
  intro l
  induction l with
  | nil => intro m _; rfl
  | cons c cs ih =>
    intro m h
    have hc : p c = true := h c (List.mem_cons_self c cs)
    simp only [List.cons_append, List.dropWhile_cons, hc, if_true]
    exact ih m (fun x hx => h x (List.mem_cons_of_mem c hx))

lemma dropWhile_all_nil (p : Char → Bool) (l : List Char)
    (h : ∀ c ∈ l, p c = true) : l.dropWhile p = [] := by
  have h2 := dropWhile_append_all p l [] h
  simpa using h2

lemma dropWhile_cons_neg (p : Char → Bool) (x : Char) (xs : List Char)
    (h : p x = false) : (x :: xs).dropWhile p = x :: xs := by
  simp [List.dropWhile_cons, h]

lemma dropWhile_length_le (p : Char → Bool) (l : List Char) :
    (l.dropWhile p).length ≤ l.length := by
  induction l with
  | nil => simp
  | cons c cs ih =>
    by_cases h : p c = true
    · rw [List.dropWhile_cons, if_pos h]
      simp
      omega
    · rw [List.dropWhile_cons, if_neg (by simp [h])]

/-- Stripping a string that is a non-blank core surrounded by whitespace
recovers exactly the core. -/
lemma stripChars_wrap (pre mid post : List Char)
    (hpre : ∀ c ∈ pre, isPySpace c = true)
    (hpost : ∀ c ∈ post, isPySpace c = true)
    (hHead : mid.dropWhile isPySpace = mid)
    (hLast : mid.reverse.dropWhile isPySpace = mid.reverse) :
    stripChars (pre ++ mid ++ post) = mid := by
  unfold stripChars
  cases mid with
  | nil =>
    have h1 : (pre ++ [] ++ post).dropWhile isPySpace = [] := by
      apply dropWhile_all_nil
      intro c hc
      simp at hc
      cases hc with
      | inl h => exact hpre c h
      | inr h => exact hpost c h
    rw [h1]
    rfl
  | cons m ms =>
    have hm : isPySpace m = false := by
      by_contra hb
      have hb2 : isPySpace m = true := by
        cases hq : isPySpace m with
        | true => rfl
        | false => exact absurd hq hb
      rw [List.dropWhile_cons, if_pos hb2] at hHead
      have hle := dropWhile_length_le isPySpace ms
      rw [hHead] at hle
      simp at hle
    have h1 : (pre ++ (m :: ms) ++ post).dropWhile isPySpace
        = m :: (ms ++ post) := by
      rw [List.append_assoc]
      rw [dropWhile_append_all isPySpace pre ((m :: ms) ++ post) hpre]
      simp only [List.cons_append]
      exact dropWhile_cons_neg isPySpace m (ms ++ post) hm
    rw [h1]
    have h2 : (m :: (ms ++ post)).reverse
        = post.reverse ++ (m :: ms).reverse := by
      simp
    rw [h2]
    rw [dropWhile_append_all isPySpace post.reverse (m :: ms).reverse
      (fun c hc => hpost c (List.mem_reverse.mp hc))]
    rw [hLast]
    simp

/-- Every piece produced by the split worker is no longer than the input
plus the accumulator. -/
lemma mem_splitWsAux_length :
    ∀ (l acc t : List Char), t ∈ splitWsAux l acc →
      t.length ≤ l.length + acc.length := by
  intro l
  induction l with
  | nil =>
    intro acc t ht
    unfold splitWsAux at ht
    by_cases h : acc.isEmpty = true
    · rw [if_pos h] at ht
      simp at ht
    · rw [if_neg h] at ht
      rw [List.mem_singleton] at ht
      subst ht
      simp
  | cons c cs ih =>
    intro acc t ht
    unfold splitWsAux at ht
    by_cases hc : isPySpace c = true
    · rw [if_pos hc] at ht
      by_cases ha : acc.isEmpty = true
      · rw [if_pos ha] at ht
        have h2 := ih [] t ht
        simp at h2 ⊢
        omega
      · rw [if_neg ha] at ht
        rw [List.mem_cons] at ht
        rcases ht with h1 | h2
        · subst h1
          simp
        · have h3 := ih [] t h2
          simp at h3 ⊢
          omega
    · rw [if_neg hc] at ht
      have h2 := ih (c :: acc) t ht
      simp at h2 ⊢
      omega

/-- The first whitespace token of a string is no longer than the string. -/
lemma head_token_length_le (s t : String) (rest : List String)
    (h : pySplitWs s = t :: rest) : t.length ≤ s.length := by
  unfold pySplitWs at h
  cases haux : splitWsAux s.data [] with
  | nil => rw [haux] at h; simp at h
  | cons a as =>
    rw [haux] at h
    simp only [List.map_cons, List.cons.injEq] at h
    have hmem : a ∈ splitWsAux s.data [] := by
      rw [haux]; exact List.mem_cons_self a as
    have hlen := mem_splitWsAux_length s.data [] a hmem
    have ht : t.length = a.length := by
      rw [← h.1]; rfl
    rw [ht, length_eq_data_length]
    simpa using hlen

lemma isPrefixOf_self (l : List Char) : l.isPrefixOf l = true := by
  induction l with
  | nil => rfl
  | cons c cs ih => simp [List.isPrefixOf, ih]

lemma isPrefixOf_length_le (l m : List Char) (h : l.isPrefixOf m = true) :
    l.length ≤ m.length := by
  induction l generalizing m with
  | nil => simp
  | cons c cs ih =>
    cases m with
    | nil => simp [List.isPrefixOf] at h
    | cons d ds =>
      simp only [List.isPrefixOf, Bool.and_eq_true] at h
      have h2 := ih ds h.2
      simp
      omega

lemma pyStartswith_self (s : String) : pyStartswith s s = true :=
  isPrefixOf_self s.data

/-- Fuel adequacy for the matcher: any two fuel bounds strictly greater
than l.length + ps.length give the same result (every recursive call of
reMatchF strictly decreases that sum), so the canonical fuel chosen by
reMatch is always sufficient and the matcher agrees with unbounded
backtracking search. -/
lemma reMatchF_fuel_irrelevant :
    ∀ (f g : Nat) (ps : List RE) (l : List Char) (prev : Option Char),
      l.length + ps.length < f → l.length + ps.length < g →
      reMatchF f ps l prev = reMatchF g ps l prev := by
  intro f
  induction f using Nat.strong_induction_on with
  | _ f ih =>
    intro g ps l prev hf hg
    cases f with
    | zero => omega
    | succ f2 =>
      cases g with
      | zero => omega
      | succ g2 =>
        cases ps with
        | nil => rfl
        | cons e ps2 =>
          cases e with
          | wordB =>
            simp only [reMatchF]
            rw [ih f2 (by omega) g2 ps2 l prev
              (by try simp only [List.length_cons] at hf hg ⊢; omega)
              (by try simp only [List.length_cons] at hf hg ⊢; omega)]
          | one c =>
            cases l with
            | nil => rfl
            | cons x xs =>
              simp only [reMatchF]
              rw [ih f2 (by omega) g2 ps2 xs (some x)
                (by try simp only [List.length_cons] at hf hg ⊢; omega)
                (by try simp only [List.length_cons] at hf hg ⊢; omega)]
          | plus c =>
            cases l with
            | nil => rfl
            | cons x xs =>
              simp only [reMatchF]
              rw [ih f2 (by omega) g2 (.star c :: ps2) xs (some x)
                (by try simp only [List.length_cons] at hf hg ⊢; omega)
                (by try simp only [List.length_cons] at hf hg ⊢; omega)]
          | star c =>
            cases l with
            | nil =>
              simp only [reMatchF]
              rw [ih f2 (by omega) g2 ps2 [] prev
                (by try simp only [List.length_cons, List.length_nil] at hf hg ⊢; omega)
                (by try simp only [List.length_cons, List.length_nil] at hf hg ⊢; omega)]
            | cons x xs =>
              simp only [reMatchF]
              rw [ih f2 (by omega) g2 ps2 (x :: xs) prev
                    (by try simp only [List.length_cons] at hf hg ⊢; omega)
                    (by try simp only [List.length_cons] at hf hg ⊢; omega),
                  ih f2 (by omega) g2 (.star c :: ps2) xs (some x)
                    (by try simp only [List.length_cons] at hf hg ⊢; omega)
                    (by try simp only [List.length_cons] at hf hg ⊢; omega)]
          | rep13 c =>
            cases l with
            | nil => rfl
            | cons x xs =>
              cases xs with
              | nil =>
                simp only [reMatchF]
                rw [ih f2 (by omega) g2 ps2 [] (some x)
                  (by try simp only [List.length_cons, List.length_nil] at hf hg ⊢; omega)
                  (by try simp only [List.length_cons, List.length_nil] at hf hg ⊢; omega)]
              | cons y ys =>
                cases ys with
                | nil =>
                  simp only [reMatchF]
                  rw [ih f2 (by omega) g2 ps2 [y] (some x)
                        (by try simp only [List.length_cons, List.length_nil] at hf hg ⊢; omega)
                        (by try simp only [List.length_cons, List.length_nil] at hf hg ⊢; omega),
                      ih f2 (by omega) g2 ps2 [] (some y)
                        (by try simp only [List.length_cons, List.length_nil] at hf hg ⊢; omega)
                        (by try simp only [List.length_cons, List.length_nil] at hf hg ⊢; omega)]
                | cons z zs =>
                  simp only [reMatchF]
                  rw [ih f2 (by omega) g2 ps2 (y :: z :: zs) (some x)
                        (by try simp only [List.length_cons] at hf hg ⊢; omega)
                        (by try simp only [List.length_cons] at hf hg ⊢; omega),
                      ih f2 (by omega) g2 ps2 (z :: zs) (some y)
                        (by try simp only [List.length_cons] at hf hg ⊢; omega)
                        (by try simp only [List.length_cons] at hf hg ⊢; omega),
                      ih f2 (by omega) g2 ps2 zs (some z)
                        (by try simp only [List.length_cons] at hf hg ⊢; omega)
                        (by try simp only [List.length_cons] at hf hg ⊢; omega)]

/-! ### Lemmas about the classifiers -/

lemma safe_prefixes_two_le : ∀ s ∈ SAFE_TOOL_PREFIXES, 2 ≤ s.length := by
  decide

lemma builtins_two_le : ∀ s ∈ SIMPLE_BUILTINS, 2 ≤ s.length := by
  decide

/-- If the effective first token has length at least 2, so does the raw
first token (in the sudo case the raw first token has length 4). -/
lemma two_le_length_of_first (t : String) (rest : List String)
    (h : 2 ≤ (firstTokenLC t rest).length) : 2 ≤ t.length := by
  unfold firstTokenLC at h
  by_cases hs : pyLower t = "sudo"
  · have h4 : t.length = 4 := by
      have hl := pyLower_length t
      rw [hs] at hl
      exact hl.symm
    omega
  · simp only [hs, if_false] at h
    rw [← pyLower_length t]
    exact h

/-- Core acceptance lemma for looks_like_command: a long-enough first token
whose effective form is a builtin or matches an allow-list entry by prefix
makes the function return true. -/
lemma looks_like_command_of_split (cmd t : String) (rest : List String)
    (hsplit : pySplitWs (pyStrip cmd) = t :: rest)
    (hlen : 2 ≤ t.length)
    (hok : firstTokenLC t rest ∈ SIMPLE_BUILTINS ∨
           SAFE_TOOL_PREFIXES.any
             (fun p => pyStartswith (firstTokenLC t rest) p) = true) :
    looks_like_command cmd = true := by
  have hcmd : cmd ≠ "" := by
    intro h
    subst h
    simp [pySplitWs, pyStrip, stripChars, splitWsAux] at hsplit
  have hstriplen : 2 ≤ (pyStrip cmd).length :=
    le_trans hlen (head_token_length_le _ _ _ hsplit)
  unfold looks_like_command
  rw [if_neg (by push_neg; exact ⟨hcmd, by omega⟩)]
  rw [hsplit]
  by_cases hb : firstTokenLC t rest ∈ SIMPLE_BUILTINS
  · simp [hb]
  · cases hok with
    | inl h => exact absurd h hb
    | inr h => simp [hb, h]

/-! ### Inventory lemmas for the three execution flows -/

/-- Whenever the single-shot flow hands a command to execute_command, that
command passed the shape check and both is_dangerous checks, and the flow
still makes the process exit with status 0. -/
lemma mainSingleShot_executed (args : Args) (query : String)
    (backend : SubprocessOutcome) (co : Option String) (rc : Int)
    (c : String) :
    (mainSingleShot args query backend co rc).executedCmd = some c →
      looks_like_command c = true ∧ is_dangerous c = false ∧
      (mainSingleShot args query backend co rc).exitCode = 0 ∧
      (mainSingleShot args query backend co rc).invokedExecute = true ∧
      (mainSingleShot args query backend co rc).childRc = some rc := by
  simp only [mainSingleShot]
  repeat' split
  all_goals intro h
  all_goals simp_all

/-- The single-shot flow only ever exits with status 0 or 1. -/
lemma mainSingleShot_exit_cases (args : Args) (query : String)
    (backend : SubprocessOutcome) (co : Option String) (rc : Int) :
    (mainSingleShot args query backend co rc).exitCode = 0 ∨
      (mainSingleShot args query backend co rc).exitCode = 1 := by
  simp only [mainSingleShot]
  repeat' split
  all_goals simp

/-- A generation failure in the single-shot flow exits with status 1. -/
lemma mainSingleShot_error (args : Args) (query : String)
    (backend : SubprocessOutcome) (co : Option String) (rc : Int)
    (e : String) (hq : pyStrip query ≠ "")
    (hgen : generate_command (pyStrip query) backend = .error e) :
    mainSingleShot args query backend co rc
      = { outcome := .modelError e, exitCode := 1 } := by
  simp only [mainSingleShot]
  rw [if_neg hq, hgen]

/-- A successful generation in the single-shot flow always exits with
status 0, whatever happens afterwards. -/
lemma mainSingleShot_ok_exit0 (args : Args) (query : String)
    (backend : SubprocessOutcome) (co : Option String) (rc : Int)
    (gen : String) (hq : pyStrip query ≠ "")
    (hgen : generate_command (pyStrip query) backend = .ok gen) :
    (mainSingleShot args query backend co rc).exitCode = 0 := by
  simp only [mainSingleShot]
  rw [if_neg hq, hgen]
  split
  next e heq => simp at heq
  next g2 heq =>
    injection heq with h2
    subst h2
    repeat' split
    all_goals simp

/-- In the single-shot flow a dangerous candidate that reached the safety
check is skipped terminally: displayed, no prompt, no auto-confirm, no
execution, exit status 0. -/
lemma mainSingleShot_dangerous (args : Args) (query : String)
    (backend : SubprocessOutcome) (co : Option String) (rc : Int)
    (gen : String) (hq : pyStrip query ≠ "")
    (hgen : generate_command (pyStrip query) backend = .ok gen)
    (hsent : headLine (pyStrip gen) ≠ SENTINEL)
    (hlook : looks_like_command (headLine (pyStrip gen)) = true)
    (hdang : is_dangerous (headLine (pyStrip gen)) = true) :
    mainSingleShot args query backend co rc
      = { outcome := .dangerousSkipped, displayedCandidate := true } := by
  simp only [mainSingleShot]
  rw [if_neg hq, hgen]
  split
  next e heq => simp at heq
  next g2 heq =>
    injection heq with h2
    subst h2
    rw [if_neg hsent, if_neg (by simp [hlook]), if_pos hdang]

/-- In the single-shot flow a candidate rejected by the shape check is
displayed but nothing further happens: no prompt, no execution, exit 0. -/
lemma mainSingleShot_unrecognized (args : Args) (query : String)
    (backend : SubprocessOutcome) (co : Option String) (rc : Int)
    (gen : String) (hq : pyStrip query ≠ "")
    (hgen : generate_command (pyStrip query) backend = .ok gen)
    (hsent : headLine (pyStrip gen) ≠ SENTINEL)
    (hlook : looks_like_command (headLine (pyStrip gen)) = false) :
    mainSingleShot args query backend co rc
      = { outcome := .unrecognized, displayedCandidate := true } := by
  simp only [mainSingleShot]
  rw [if_neg hq, hgen]
  split
  next e heq => simp at heq
  next g2 heq =>
    injection heq with h2
    subst h2
    rw [if_neg hsent, if_pos hlook]

/-- Whenever the simple-CLI turn hands a command to execute_command, that
command passed the is_dangerous check (looks_like_command is never
consulted in this flow). -/
lemma simpleCliTurn_executed (args : Args) (qi : Option String)
    (backend : SubprocessOutcome) (confirmRaw : String) (rc : Int)
    (c : String) :
    (simpleCliTurn args qi backend confirmRaw rc).executedCmd = some c →
      is_dangerous c = false ∧
      (simpleCliTurn args qi backend confirmRaw rc).invokedExecute = true ∧
      (simpleCliTurn args qi backend confirmRaw rc).childRc = some rc := by
  simp only [simpleCliTurn]
  repeat' split
  all_goals intro h
  all_goals simp_all

/-- In the simple-CLI turn, once a candidate is generated and dry-run is
off, the confirmation point is reached unconditionally: with --yes unset
the interactive prompt is consulted (and with --yes set the auto-confirm
is consulted) before is_dangerous is ever examined. -/
lemma simpleCliTurn_prompt_first (args : Args) (qi : String)
    (backend : SubprocessOutcome) (confirmRaw : String) (rc : Int)
    (g : String) (hqi : pyStrip qi ≠ "")
    (hgen : generate_command (pyStrip qi) backend = .ok g)
    (hdry : args.dryRun = false) :
    (simpleCliTurn args (some qi) backend confirmRaw rc).promptConsulted
        = !args.yes ∧
      (simpleCliTurn args (some qi) backend confirmRaw rc).autoConfirmUsed
        = args.yes := by
  simp only [simpleCliTurn]
  rw [if_neg hqi, hgen]
  split
  next e heq => simp at heq
  next g2 heq =>
    injection heq with h2
    subst h2
    rw [if_neg (by simp [hdry])]
    repeat' split
    all_goals simp

/-- In the simple-CLI turn an affirmative confirmation executes any
non-dangerous candidate, with no shape check. -/
lemma simpleCliTurn_exec_any (args : Args) (qi : String)
    (backend : SubprocessOutcome) (confirmRaw : String) (rc : Int)
    (g : String) (hqi : pyStrip qi ≠ "")
    (hgen : generate_command (pyStrip qi) backend = .ok g)
    (hdry : args.dryRun = false)
    (haff : (if args.yes then "y" else pyLower (pyStrip confirmRaw)) = "y" ∨
            (if args.yes then "y" else pyLower (pyStrip confirmRaw)) = "yes")
    (hdang : is_dangerous g = false) :
    simpleCliTurn args (some qi) backend confirmRaw rc
      = { outcome := .executedDone, invokedExecute := true,
          executedCmd := some g, childRc := some rc,
          promptConsulted := !args.yes, autoConfirmUsed := args.yes,
          displayedCandidate := true } := by
  simp only [simpleCliTurn]
  rw [if_neg hqi, hgen]
  split
  next e heq => simp at heq
  next g2 heq =>
    injection heq with h2
    subst h2
    rw [if_neg (by simp [hdry]), if_pos haff, if_neg (by simp [hdang])]

/-- Whenever the TUI action step hands a command to execute_command, that
command passed the is_dangerous check. -/
lemma tuiActionStep_executed (g : String) (act : TuiAction)
    (confirm : String) (rc : Int) (c : String) :
    (tuiActionStep g act confirm rc).executedCmd = some c →
      is_dangerous c = false ∧
      (tuiActionStep g act confirm rc).invokedExecute = true := by
  simp only [tuiActionStep]
  repeat' split
  all_goals intro h
  all_goals simp_all

/-- In the TUI, choosing run on a dangerous candidate blocks immediately:
the y/n confirmation prompt is never consulted and nothing executes. -/
lemma tuiActionStep_dangerous (g : String) (confirm : String) (rc : Int)
    (hdang : is_dangerous g = true) :
    tuiActionStep g .runA confirm rc
      = { outcome := .dangerousSkipped, displayedCandidate := true } := by
  simp only [tuiActionStep]
  rw [if_pos hdang]

/-! ### Claim theorems: the allow-shape heuristic -/

/-- C7: for every candidate string whose first whitespace-delimited token,
after replacing a leading sudo by the following token, is (lowercased) a
member of the fixed allow-list SAFE_TOOL_PREFIXES or of the simple-builtin
set, looks_like_command returns true. -/
theorem c7_allowlist_member_accepted (cmd t : String) (rest : List String)
    (hsplit : pySplitWs (pyStrip cmd) = t :: rest)
    (hmem : firstTokenLC t rest ∈ SAFE_TOOL_PREFIXES ∨
            firstTokenLC t rest ∈ SIMPLE_BUILTINS) :
    looks_like_command cmd = true := by
  have hflen : 2 ≤ (firstTokenLC t rest).length := by
    cases hmem with
    | inl h => exact safe_prefixes_two_le _ h
    | inr h => exact builtins_two_le _ h
  apply looks_like_command_of_split cmd t rest hsplit
    (two_le_length_of_first t rest hflen)
  cases hmem with
  | inl h =>
    right
    exact List.any_eq_true.mpr ⟨_, h, pyStartswith_self _⟩
  | inr h => exact Or.inl h

/-- Witness for C7 at the concrete candidate sudo nmap -sV. -/
theorem c7_witness :
    pySplitWs (pyStrip "sudo nmap -sV") = ["sudo", "nmap", "-sV"] ∧
    firstTokenLC "sudo" ["nmap", "-sV"] ∈ SAFE_TOOL_PREFIXES ∧
    looks_like_command "sudo nmap -sV" = true :=
  ⟨by decide, by decide,
   c7_allowlist_member_accepted "sudo nmap -sV" "sudo" ["nmap", "-sV"]
     (by decide) (Or.inl (by decide))⟩

/-- C9: looks_like_command accepts by prefix, not exact membership: any
candidate whose effective first token merely begins with an allow-list
entry (such as catastrophe, which begins with cat) is accepted. -/
theorem c9_prefix_match_accepted (cmd t : String) (rest : List String)
    (hsplit : pySplitWs (pyStrip cmd) = t :: rest)
    (hpref : ∃ p ∈ SAFE_TOOL_PREFIXES,
               pyStartswith (firstTokenLC t rest) p = true) :
    looks_like_command cmd = true := by
  obtain ⟨p, hp, hsw⟩ := hpref
  have h2p : 2 ≤ p.length := safe_prefixes_two_le p hp
  have hple : p.length ≤ (firstTokenLC t rest).length := by
    have h3 := isPrefixOf_length_le p.data (firstTokenLC t rest).data hsw
    rw [length_eq_data_length, length_eq_data_length]
    exact h3
  apply looks_like_command_of_split cmd t rest hsplit
    (two_le_length_of_first t rest (by omega))
  exact Or.inr (List.any_eq_true.mpr ⟨p, hp, hsw⟩)

/-- Witness for C9 at the concrete candidate catastrophe now: the token
catastrophe is not in the allow-list, but begins with the entry cat. -/
theorem c9_witness :
    pySplitWs (pyStrip "catastrophe now") = ["catastrophe", "now"] ∧
    firstTokenLC "catastrophe" ["now"] ∉ SAFE_TOOL_PREFIXES ∧
    pyStartswith (firstTokenLC "catastrophe" ["now"]) "cat" = true ∧
    looks_like_command "catastrophe now" = true :=
  ⟨by decide, by decide, by decide,
   c9_prefix_match_accepted "catastrophe now" "catastrophe" ["now"]
     (by decide) ⟨"cat", by decide, by decide⟩⟩

/-- C10: every input whose whitespace-stripped form is shorter than 2
characters (in particular any single-character candidate) is rejected by
looks_like_command, by the length guard before any token inspection. -/
theorem c10_short_input_rejected (cmd : String)
    (h : (pyStrip cmd).length < 2) : looks_like_command cmd = false := by
  unfold looks_like_command
  rw [if_pos (Or.inr h)]

/-- Witness for C10 at the single-character candidate x. -/
theorem c10_witness :
    (pyStrip "x").length < 2 ∧ looks_like_command "x" = false :=
  ⟨by decide, c10_short_input_rejected "x" (by decide)⟩

/-! ### Lemmas for the normalizer and the sentinel -/

/-- Stripping recovers the sentinel from arbitrary surrounding
whitespace. -/
lemma pyStrip_ws_wrap (wsPre wsPost : String)
    (h1 : ∀ c ∈ wsPre.data, isPySpace c = true)
    (h2 : ∀ c ∈ wsPost.data, isPySpace c = true) :
    pyStrip (wsPre ++ SENTINEL ++ wsPost) = SENTINEL := by
  unfold pyStrip
  have hdata : (wsPre ++ SENTINEL ++ wsPost).data
      = wsPre.data ++ SENTINEL.data ++ wsPost.data := by
    rw [data_append, data_append]
  rw [hdata]
  rw [stripChars_wrap wsPre.data SENTINEL.data wsPost.data h1 h2
    (by decide) (by decide)]

/-- Characterization of the first-non-blank-line loop: it returns a value
exactly when the line list decomposes into a blank prefix followed by a
non-blank line, and the value is the strip of that first non-blank
line. -/
lemma firstNonBlank_some_iff :
    ∀ (L : List String) (ln : String),
      firstNonBlank L = some ln ↔
        ∃ pre l rest, L = pre ++ l :: rest ∧
          (∀ b ∈ pre, pyStrip b = "") ∧ pyStrip l ≠ "" ∧ ln = pyStrip l := by
  intro L
  induction L with
  | nil =>
    intro ln
    constructor
    · intro h
      simp [firstNonBlank] at h
    · rintro ⟨pre, l, rest, hL, -, -, -⟩
      exact absurd hL (by simp)
  | cons x xs ih =>
    intro ln
    by_cases hx : pyStrip x = ""
    · rw [show firstNonBlank (x :: xs) = firstNonBlank xs from by
        simp [firstNonBlank, hx]]
      constructor
      · intro h
        obtain ⟨pre, l, rest, hL, hpre, hl, hln⟩ := (ih ln).mp h
        refine ⟨x :: pre, l, rest, by simp [hL], ?_, hl, hln⟩
        intro b hb
        rcases List.mem_cons.mp hb with h2 | h2
        · subst h2; exact hx
        · exact hpre b h2
      · rintro ⟨pre, l, rest, hL, hpre, hl, hln⟩
        cases pre with
        | nil =>
          simp only [List.nil_append, List.cons.injEq] at hL
          exact absurd (hL.1 ▸ hx) hl
        | cons p pre2 =>
          simp only [List.cons_append, List.cons.injEq] at hL
          exact (ih ln).mpr ⟨pre2, l, rest, hL.2,
            fun b hb => hpre b (List.mem_cons_of_mem p hb), hl, hln⟩
    · rw [show firstNonBlank (x :: xs) = some (pyStrip x) from by
        simp [firstNonBlank, hx]]
      constructor
      · intro h
        injection h with h2
        exact ⟨[], x, xs, rfl, by simp, hx, h2.symm⟩
      · rintro ⟨pre, l, rest, hL, hpre, hl, hln⟩
        cases pre with
        | nil =>
          simp only [List.nil_append, List.cons.injEq] at hL
          rw [hln, ← hL.1]
        | cons p pre2 =>
          simp only [List.cons_append, List.cons.injEq] at hL
          exact absurd (hL.1 ▸ hpre p (List.mem_cons_self p pre2)) hx

/-- The loop yields nothing exactly when every line is blank. -/
lemma firstNonBlank_none_iff :
    ∀ (L : List String), firstNonBlank L = none ↔ ∀ l ∈ L, pyStrip l = "" := by
  intro L
  induction L with
  | nil => simp [firstNonBlank]
  | cons x xs ih =>
    by_cases hx : pyStrip x = ""
    · rw [show firstNonBlank (x :: xs) = firstNonBlank xs from by
        simp [firstNonBlank, hx]]
      constructor
      · intro h l hl
        rcases List.mem_cons.mp hl with h2 | h2
        · subst h2; exact hx
        · exact (ih.mp h) l h2
      · intro h
        exact ih.mpr fun l hl => h l (List.mem_cons_of_mem x hl)
    · rw [show firstNonBlank (x :: xs) = some (pyStrip x) from by
        simp [firstNonBlank, hx]]
      constructor
      · intro h
        exact absurd h (by simp)
      · intro h
        exact absurd (h x (List.mem_cons_self x xs)) hx

/-- A successful model call whose output has no non-blank line makes
generate_command fail with empty_response. -/
lemma generate_command_empty (q : String) (backend : SubprocessOutcome)
    (raw : String) (hcall : call_ollama_run backend = .ok raw)
    (hnone : firstNonBlank (splitLinesPy raw) = none) :
    generate_command q backend = .error "empty_response" := by
  simp only [generate_command]
  rw [hcall]
  split
  next e heq => simp at heq
  next g2 heq =>
    injection heq with h3
    subst h3
    rw [hnone]

/-! ### Claim theorems: the normalizer and the sentinel -/

/-- C5: the sentinel literal embedded in the prompt template agrees
byte-for-byte with the literal SENTINEL that main compares the candidate
against; normalizing a raw model output consisting of the sentinel line
surrounded by arbitrary blank lines and trailing whitespace yields exactly
the sentinel; and on such output the single-shot flow ends in the
NoCommand outcome (exit status 0, nothing executed, no prompt). -/
theorem c5_sentinel_round_trip (wsPre wsPost : String)
    (h1 : ∀ c ∈ wsPre.data, isPySpace c = true)
    (h2 : ∀ c ∈ wsPost.data, isPySpace c = true) :
    (∀ q, build_prompt q
        = TPL_BEFORE ++ q ++
          ("\n\nReturn EXACTLY one terminal command (single line) that performs this task. Do NOT output explanations, markdown, or other text.\nIf the request is ambiguous or unsafe, output: "
            ++ SENTINEL ++ "\n")) ∧
    (∀ q, generate_command q (.completed 0 (wsPre ++ SENTINEL ++ wsPost) "")
        = .ok SENTINEL) ∧
    (∀ args query co rc, pyStrip query ≠ "" →
      mainSingleShot args query
          (.completed 0 (wsPre ++ SENTINEL ++ wsPost) "") co rc
        = { outcome := .noCommand }) := by
  have hcall : call_ollama_run (.completed 0 (wsPre ++ SENTINEL ++ wsPost) "")
      = .ok SENTINEL := by
    simp only [call_ollama_run]
    rw [pyStrip_ws_wrap wsPre wsPost h1 h2]
    rw [if_neg (by simp)]
  have hgen : ∀ q,
      generate_command q (.completed 0 (wsPre ++ SENTINEL ++ wsPost) "")
        = .ok SENTINEL := by
    intro q
    simp only [generate_command]
    rw [hcall]
    rfl
  refine ⟨fun q => rfl, hgen, ?_⟩
  intro args query co rc hq
  simp only [mainSingleShot]
  rw [if_neg hq, hgen (pyStrip query)]
  split
  next e heq => simp at heq
  next g2 heq =>
    injection heq with h3
    subst h3
    rw [if_pos (by decide)]

/-- Witness for C5 with concrete blank lines before and trailing
whitespace plus a blank line after the sentinel. -/
theorem c5_witness :
    mainSingleShot ⟨false, false, false, false⟩ "do something odd"
        (.completed 0 ("\n \n" ++ SENTINEL ++ "  \n") "") none 0
      = { outcome := .noCommand } :=
  (c5_sentinel_round_trip "\n \n" "  \n" (by decide) (by decide)).2.2
    ⟨false, false, false, false⟩ "do something odd" none 0 (by decide)

/-- C6: the normalizer splits the raw output at line boundaries, discards
blank (whitespace-only) lines and returns the strip of the first remaining
line as the candidate: it yields a candidate exactly when the line list
decomposes into a blank prefix followed by a non-blank line (first wins),
yields nothing exactly when every line is blank, and in that case
generate_command surfaces the error empty_response, which the single-shot
flow treats as a failure (exit status 1, no candidate, nothing
executed). -/
theorem c6_normalizer (raw : String) :
    (∀ ln, firstNonBlank (splitLinesPy raw) = some ln ↔
      ∃ pre l rest, splitLinesPy raw = pre ++ l :: rest ∧
        (∀ b ∈ pre, pyStrip b = "") ∧ pyStrip l ≠ "" ∧ ln = pyStrip l) ∧
    (firstNonBlank (splitLinesPy raw) = none ↔
      ∀ l ∈ splitLinesPy raw, pyStrip l = "") ∧
    (∀ q backend, call_ollama_run backend = .ok raw →
      firstNonBlank (splitLinesPy raw) = none →
      generate_command q backend = .error "empty_response") ∧
    (∀ args query backend co rc, pyStrip query ≠ "" →
      call_ollama_run backend = .ok raw →
      firstNonBlank (splitLinesPy raw) = none →
      (mainSingleShot args query backend co rc).exitCode = 1 ∧
      (mainSingleShot args query backend co rc).executedCmd = none) := by
  refine ⟨firstNonBlank_some_iff (splitLinesPy raw),
    firstNonBlank_none_iff (splitLinesPy raw), ?_, ?_⟩
  · intro q backend hcall hnone
    exact generate_command_empty q backend raw hcall hnone
  · intro args query backend co rc hq hcall hnone
    rw [mainSingleShot_error args query backend co rc "empty_response" hq
      (generate_command_empty (pyStrip query) backend raw hcall hnone)]
    exact ⟨rfl, rfl⟩

/-- Witness for C6: a model output of only blank lines is surfaced as the
empty_response failure. -/
theorem c6_witness :
    generate_command "scan the host" (.completed 0 "  \n \n" "")
      = .error "empty_response" :=
  (c6_normalizer "").2.2.1 "scan the host" (.completed 0 "  \n \n" "")
    rfl rfl

/-! ### Claim theorems: the deny list and the execution gate -/

/-- C1: every candidate matching a deny-list pattern is classified
dangerous by is_dangerous (matching is performed on the lowercased text,
hence any casing is covered, and the patterns accept arbitrary internal
whitespace through their whitespace quantifiers), and none of the three
execution paths of the program -- single-shot main, a simple-CLI loop
turn, a TUI action step -- ever hands such a candidate to
execute_command. -/
theorem c1_dangerous_never_executed (cmd : String)
    (h : ∃ p ∈ DANGEROUS_PATTERNS, reSearch p (pyLower cmd) = true) :
    is_dangerous cmd = true ∧
    (∀ args query backend co rc,
      (mainSingleShot args query backend co rc).executedCmd ≠ some cmd) ∧
    (∀ args qi backend confirmRaw rc,
      (simpleCliTurn args qi backend confirmRaw rc).executedCmd ≠ some cmd) ∧
    (∀ g act confirm rc,
      (tuiActionStep g act confirm rc).executedCmd ≠ some cmd) := by
  obtain ⟨p, hp, hs⟩ := h
  have hd : is_dangerous cmd = true := List.any_eq_true.mpr ⟨p, hp, hs⟩
  refine ⟨hd, ?_, ?_, ?_⟩
  · intro args query backend co rc hex
    have h2 := (mainSingleShot_executed args query backend co rc cmd hex).2.1
    simp [hd] at h2
  · intro args qi backend confirmRaw rc hex
    have h2 := (simpleCliTurn_executed args qi backend confirmRaw rc cmd hex).1
    simp [hd] at h2
  · intro g act confirm rc hex
    have h2 := (tuiActionStep_executed g act confirm rc cmd hex).1
    simp [hd] at h2

/-- Witness for C1 at the candidate RM   -rf /tmp (upper casing, multiple
internal spaces). -/
theorem c1_witness :
    (∃ p ∈ DANGEROUS_PATTERNS, reSearch p (pyLower "RM   -rf /tmp") = true) ∧
    is_dangerous "RM   -rf /tmp" = true :=
  ⟨by decide, (c1_dangerous_never_executed "RM   -rf /tmp" (by decide)).1⟩

/-- C2 counterexample: in the simple CLI loop with a dangerous generated
candidate (rm -rf /), --yes unset and the user answering n, the
interactive yes/no run-confirmation prompt IS consulted even though the
classification of the candidate is dangerous (the danger check at line 293
only runs after an affirmative answer to the prompt at line 291),
contradicting the claim that no confirmation step is consulted for
dangerous candidates on every execution path. -/
theorem c2_counterexample :
    is_dangerous "rm -rf /" = true ∧
    (simpleCliTurn ⟨false, false, false, false⟩ (some "wipe the disk")
        (.completed 0 "rm -rf /" "") "n" 0).promptConsulted = true := by
  constructor
  · decide
  · decide

/-- C2 (amended): a dangerous classification always prevents execution on
every path; in the single-shot path and in the TUI the skip to the
terminal dangerous outcome happens before any confirmation (no interactive
prompt and no auto-confirm is consulted), while in the simple CLI turn the
confirmation point (interactive prompt, or auto-confirm under --yes) is
consulted first and the danger check runs only after an affirmative
answer -- but a dangerous candidate is still never executed there. -/
theorem c2_amended_dangerous_gate (cand : String)
    (hdang : is_dangerous cand = true) :
    (∀ args query backend co rc gen,
       pyStrip query ≠ "" →
       generate_command (pyStrip query) backend = .ok gen →
       headLine (pyStrip gen) = cand →
       cand ≠ SENTINEL →
       looks_like_command cand = true →
       mainSingleShot args query backend co rc
         = { outcome := .dangerousSkipped, displayedCandidate := true }) ∧
    (∀ confirm rc,
       tuiActionStep cand .runA confirm rc
         = { outcome := .dangerousSkipped, displayedCandidate := true }) ∧
    (∀ args qi backend confirmRaw rc,
       (simpleCliTurn args qi backend confirmRaw rc).executedCmd
         ≠ some cand) ∧
    (∀ args qi backend confirmRaw rc g,
       pyStrip qi ≠ "" →
       generate_command (pyStrip qi) backend = .ok g →
       args.dryRun = false →
       (simpleCliTurn args (some qi) backend confirmRaw rc).promptConsulted
         = !args.yes) := by
  refine ⟨?_, ?_, ?_, ?_⟩
  · intro args query backend co rc gen hq hgen hc hsent hlook
    exact mainSingleShot_dangerous args query backend co rc gen hq hgen
      (by rw [hc]; exact hsent) (by rw [hc]; exact hlook)
      (by rw [hc]; exact hdang)
  · intro confirm rc
    exact tuiActionStep_dangerous cand confirm rc hdang
  · intro args qi backend confirmRaw rc hex
    have h2 := (simpleCliTurn_executed args qi backend confirmRaw rc cand hex).1
    simp [hdang] at h2
  · intro args qi backend confirmRaw rc g hqi hgen hdry
    exact (simpleCliTurn_prompt_first args qi backend confirmRaw rc g hqi
      hgen hdry).1

/-- Witness for C2 (amended): a single-shot run over the dangerous but
shape-accepted candidate cat format skips terminally without consulting
the confirmation. -/
theorem c2_amended_witness :
    mainSingleShot ⟨false, false, false, false⟩ "break the disk"
        (.completed 0 "cat format" "") (some "y") 0
      = { outcome := .dangerousSkipped, displayedCandidate := true } :=
  (c2_amended_dangerous_gate "cat format" (by decide)).1
    ⟨false, false, false, false⟩ "break the disk"
    (.completed 0 "cat format" "") (some "y") 0 "cat format"
    (by decide) rfl rfl (by decide) (by decide)

/-- C3 counterexample: with --yes set, a successful generation of the
benign command uname -a and a child process exiting with code 7, the
command is executed and the child exit code is 7, yet the process exit
status of the single-shot run is 0, not 7 -- main prints the child exit
code and returns without sys.exit, so the child exit code is never
propagated as the process exit code. -/
theorem c3_counterexample :
    (mainSingleShot ⟨false, false, true, false⟩ "show kernel info"
        (.completed 0 "uname -a" "") none 7).invokedExecute = true ∧
    (mainSingleShot ⟨false, false, true, false⟩ "show kernel info"
        (.completed 0 "uname -a" "") none 7).childRc = some 7 ∧
    (mainSingleShot ⟨false, false, true, false⟩ "show kernel info"
        (.completed 0 "uname -a" "") none 7).exitCode = 0 := by
  refine ⟨?_, ?_, ?_⟩
  · decide
  · decide
  · decide

/-- Helper for C3: whenever the single-shot flow invokes execute_command
its process exit status is 0. -/
lemma mainSingleShot_invoked_exit0 (args : Args) (query : String)
    (backend : SubprocessOutcome) (co : Option String) (rc : Int) :
    (mainSingleShot args query backend co rc).invokedExecute = true →
      (mainSingleShot args query backend co rc).exitCode = 0 := by
  simp only [mainSingleShot]
  repeat' split
  all_goals intro h
  all_goals simp_all

/-- C3 (amended): in non-interactive single-shot mode the process exit code
is always 0 or 1: it is 1 exactly on model/backend failure or malformed
(unusable) output, 0 on every successfully generated candidate -- success,
sentinel, unrecognized shape, dangerous skip, dry-run, cancellation, and
also when a command is actually executed: the child process exit code is
reported to the user but the process itself still exits 0. -/
theorem c3_amended_exit_codes (args : Args) (query : String)
    (backend : SubprocessOutcome) (co : Option String) (rc : Int) :
    ((mainSingleShot args query backend co rc).exitCode = 0 ∨
     (mainSingleShot args query backend co rc).exitCode = 1) ∧
    ((mainSingleShot args query backend co rc).invokedExecute = true →
      (mainSingleShot args query backend co rc).exitCode = 0) ∧
    (∀ e, pyStrip query ≠ "" →
      generate_command (pyStrip query) backend = .error e →
      (mainSingleShot args query backend co rc).exitCode = 1) ∧
    (∀ gen, pyStrip query ≠ "" →
      generate_command (pyStrip query) backend = .ok gen →
      (mainSingleShot args query backend co rc).exitCode = 0) := by
  refine ⟨mainSingleShot_exit_cases args query backend co rc,
    mainSingleShot_invoked_exit0 args query backend co rc, ?_, ?_⟩
  · intro e hq hgen
    rw [mainSingleShot_error args query backend co rc e hq hgen]
  · intro gen hq hgen
    exact mainSingleShot_ok_exit0 args query backend co rc gen hq hgen

/-- Witness for C3 (amended): a backend timeout makes the single-shot run
exit with status 1. -/
theorem c3_amended_witness :
    (mainSingleShot ⟨false, false, false, false⟩ "scan" .timedOut
        none 0).exitCode = 1 :=
  (c3_amended_exit_codes ⟨false, false, false, false⟩ "scan" .timedOut
      none 0).2.2.1 "OLLAMA_TIMEOUT" (by decide) rfl

/-- C4 counterexample: the generated candidate xyzzy foo fails
looks_like_command, yet one simple-CLI turn under --yes executes it --
the simple CLI path never consults the shape check, contradicting the
claim that a shape-rejected candidate is never executed on every
execution path. -/
theorem c4_counterexample :
    looks_like_command "xyzzy foo" = false ∧
    (simpleCliTurn ⟨false, false, true, false⟩ (some "frobnicate")
        (.completed 0 "xyzzy foo" "") "" 3).invokedExecute = true ∧
    (simpleCliTurn ⟨false, false, true, false⟩ (some "frobnicate")
        (.completed 0 "xyzzy foo" "") "" 3).executedCmd
      = some "xyzzy foo" := by
  refine ⟨?_, ?_, ?_⟩
  · decide
  · decide
  · decide

/-- C4 (amended): only single-shot mode consults the allow-shape
heuristic: there, every executed command passed looks_like_command, and a
candidate failing it is displayed but never executed (a soft stop,
exit 0).  The simple CLI turn and the TUI action step never consult
looks_like_command: they execute any non-dangerous candidate after an
affirmative confirmation, including candidates failing the shape check. -/
theorem c4_amended_shape_gate :
    (∀ args query backend co rc c,
      (mainSingleShot args query backend co rc).executedCmd = some c →
      looks_like_command c = true) ∧
    (∀ args query backend co rc gen,
      pyStrip query ≠ "" →
      generate_command (pyStrip query) backend = .ok gen →
      headLine (pyStrip gen) ≠ SENTINEL →
      looks_like_command (headLine (pyStrip gen)) = false →
      mainSingleShot args query backend co rc
        = { outcome := .unrecognized, displayedCandidate := true }) ∧
    (∀ args qi backend confirmRaw rc g,
      pyStrip qi ≠ "" →
      generate_command (pyStrip qi) backend = .ok g →
      args.dryRun = false →
      ((if args.yes then "y" else pyLower (pyStrip confirmRaw)) = "y" ∨
       (if args.yes then "y" else pyLower (pyStrip confirmRaw)) = "yes") →
      is_dangerous g = false →
      (simpleCliTurn args (some qi) backend confirmRaw rc).executedCmd
        = some g) ∧
    (∀ g confirm rc, is_dangerous g = false → confirm = "y" →
      (tuiActionStep g .runA confirm rc).executedCmd = some g) := by
  refine ⟨?_, ?_, ?_, ?_⟩
  · intro args query backend co rc c hex
    exact (mainSingleShot_executed args query backend co rc c hex).1
  · intro args query backend co rc gen hq hgen hsent hlook
    exact mainSingleShot_unrecognized args query backend co rc gen hq hgen
      hsent hlook
  · intro args qi backend confirmRaw rc g hqi hgen hdry haff hdang
    rw [simpleCliTurn_exec_any args qi backend confirmRaw rc g hqi hgen hdry
      haff hdang]
  · intro g confirm rc hdang hc
    subst hc
    simp only [tuiActionStep]
    rw [if_neg (by simp [hdang])]
    simp

/-- Witness for C4 (amended): a single-shot run over the shape-rejected
candidate xyzzy foo ends in the unrecognized outcome, displayed but not
executed. -/
theorem c4_amended_witness :
    mainSingleShot ⟨false, false, true, false⟩ "frobnicate"
        (.completed 0 "xyzzy foo" "") none 0
      = { outcome := .unrecognized, displayedCandidate := true } :=
  c4_amended_shape_gate.2.1 ⟨false, false, true, false⟩ "frobnicate"
    (.completed 0 "xyzzy foo" "") none 0 "xyzzy foo"
    (by decide) rfl (by decide) (by decide)

/-- C8: the model client maps a backend call that exceeded its timeout
(subprocess.TimeoutExpired) to the typed failure OLLAMA_TIMEOUT, maps an
unreachable backend executable (FileNotFoundError) to the typed failure
OLLAMA_NOT_FOUND, and performs exactly one outbound backend invocation
(with the given model, prompt and timeout) per call, with no retry. -/
theorem c8_model_client (backend : SubprocessOutcome)
    (model prompt : String) (tmo : Nat) :
    (backend = .timedOut →
      (call_ollama_run_traced backend model prompt tmo).1
        = .error "OLLAMA_TIMEOUT") ∧
    (backend = .notFound →
      (call_ollama_run_traced backend model prompt tmo).1
        = .error "OLLAMA_NOT_FOUND") ∧
    (call_ollama_run_traced backend model prompt tmo).2.length = 1 ∧
    (call_ollama_run_traced backend model prompt tmo).2
      = [(model, prompt, tmo)] := by
  refine ⟨?_, ?_, rfl, rfl⟩
  · intro h
    subst h
    rfl
  · intro h
    subst h
    rfl

/-- Witness for C8 at a concrete model, prompt and timeout. -/
theorem c8_witness :
    (call_ollama_run_traced .timedOut "phi" "scan the host" 20).1
        = .error "OLLAMA_TIMEOUT" ∧
    (call_ollama_run_traced .notFound "phi" "scan the host" 20).1
        = .error "OLLAMA_NOT_FOUND" :=
  ⟨(c8_model_client .timedOut "phi" "scan the host" 20).1 rfl,
   (c8_model_client .notFound "phi" "scan the host" 20).2.1 rfl⟩

end Ai4kali
